import Mathlib

/-!
# Window lifecycle and event dispatch (`source/Window.cpp`)

A shallow embedding of `glow::Window`.  The controller's members become a record,
every member function becomes a pure function from the state before the call to the
state after it together with the list of calls it issued on its collaborators
(native window, rendering context, event handler, log, process-wide quit).

The collaborators are not part of these sources, so what they answer is an input of
the embedding: the result of the native window's `create`, the size and handle the
native window reports, the object `new Context()` yields and the result of the
context's `create`.  Event handler callbacks are taken not to call back into the
window they are handed.
-/

namespace glow

/-- Identity of a `WindowEventHandler` object; a null pointer is `none` of the option. -/
abbrev WindowEventHandler := Nat

/-- Identity of a `Context` object; a null pointer is `none` of the option. -/
abbrev Context := Nat

/-- The `ContextFormat` handed to `create`; the controller only passes it on. -/
structure ContextFormat where
  tag : Nat
  deriving DecidableEq, Repr

/-- What the platform window behind `m_window` reports through `handle()`, `width()`
and `height()` (all three are C++ `int`). -/
structure NativeWindow where
  handle : Int
  width : Int
  height : Int
  deriving DecidableEq, Repr

/-- The calls a member function issues on its collaborators, in program order. -/
inductive Call where
  | nativeCreate (format : ContextFormat) (title : String) (width height : Nat)
  | nativeDestroy
  | fatal (message : String)
  | contextNew (c : Context)
  | contextCreate (c : Context) (handle : Int) (format : ContextFormat)
  | makeCurrent (c : Context)
  | doneCurrent (c : Context)
  | swap (c : Context)
  | release (c : Context)
  | contextDelete (c : Context)
  | initializeEvent (h : WindowEventHandler)
  | resizeEvent (h : WindowEventHandler) (width height : Int)
  | paintEvent (h : WindowEventHandler)
  | idleEvent (h : WindowEventHandler)
  | deinitializeEvent (h : WindowEventHandler)
  | quit (code : Int)
  deriving DecidableEq, Repr

/-- The members of `glow::Window`: `m_eventHandler`, `m_context`, `m_quitOnDestroy`
and the platform window `m_window`. -/
structure Window where
  m_eventHandler : Option WindowEventHandler
  m_context : Option Context
  m_quitOnDestroy : Bool
  m_window : NativeWindow
  deriving DecidableEq, Repr

/-- The constructor `Window::Window()`: no handler, no context, `m_quitOnDestroy` set,
and a freshly allocated platform window (whatever it reports before `create`). -/
def Window.new (w : NativeWindow) : Window :=
  { m_eventHandler := none, m_context := none, m_quitOnDestroy := true, m_window := w }

/-- `Window::eventHandler()`. -/
def Window.eventHandler (s : Window) : Option WindowEventHandler := s.m_eventHandler

/-- `Window::context()`. -/
def Window.context (s : Window) : Option Context := s.m_context

/-- `Window::handle()`. -/
def Window.handle (s : Window) : Int := s.m_window.handle

/-- `Window::width()`. -/
def Window.width (s : Window) : Int := s.m_window.width

/-- `Window::height()`. -/
def Window.height (s : Window) : Int := s.m_window.height

/-- `Window::quitsOnDestroy()`. -/
def Window.quitsOnDestroy (s : Window) : Bool := s.m_quitOnDestroy

/-- `Window::setQuitOnDestroy(enable)`. -/
def Window.setQuitOnDestroy (s : Window) (enable : Bool) : Window × List Call :=
  ({ s with m_quitOnDestroy := enable }, [])

/-- `Window::promoteContext()`. -/
def Window.promoteContext (s : Window) : Window × List Call :=
  match s.m_context, s.m_eventHandler with
  | some c, some h =>
    (s, [Call.makeCurrent c, Call.initializeEvent h,
         Call.resizeEvent h s.width s.height, Call.doneCurrent c])
  | _, _ => (s, [])

/-- `Window::attach(eventHandler)`. -/
def Window.attach (s : Window) (eventHandler : Option WindowEventHandler) :
    Window × List Call :=
  let s1 := { s with m_eventHandler := eventHandler }
  if s1.m_eventHandler.isNone then (s1, [])
  else if s1.m_context.isNone then (s1, [])
  else s1.promoteContext

/-- What the collaborators answer during one `Window::create` call: the result of
`m_window->create(...)`, what the platform window reports once that call is over, the
object `new Context()` yields, and the result of `m_context->create(...)`. -/
structure CreateEnv where
  nativeOk : Bool
  window : NativeWindow
  newContext : Context
  contextOk : Bool
  deriving DecidableEq, Repr

/-- Conversion of a C++ `int` to `unsigned int`, as done when the two are compared. -/
def toUnsigned (i : Int) : Nat := (i % 2 ^ 32).toNat

/-- `Window::create(format, title, width, height)`.  `ndebug` tells whether the build
defines `NDEBUG`, which turns the two `assert`s into nothing.  The result is `none`
when an `assert` fails, in which case the call does not return. -/
def Window.create (ndebug : Bool) (s : Window) (format : ContextFormat) (title : String)
    (width height : Nat) (env : CreateEnv) : Option (Bool × Window × List Call) :=
  let s1 := { s with m_window := env.window }
  if !env.nativeOk then
    some (false, s1, [Call.nativeCreate format title width height,
                      Call.fatal "Creating native window failed."])
  else if ndebug = false ∧ toUnsigned s1.width ≠ width % 2 ^ 32 then none
  else if ndebug = false ∧ toUnsigned s1.height ≠ height % 2 ^ 32 then none
  else
    let s2 := { s1 with m_context := some env.newContext }
    let result := env.contextOk
    let p := s2.promoteContext
    some (result, p.1,
      [Call.nativeCreate format title width height, Call.contextNew env.newContext,
       Call.contextCreate env.newContext s2.handle format] ++ p.2)

/-- `Window::onRepaint()`.  The result is `none` when `m_context` is null: the source
dereferences it unchecked. -/
def Window.onRepaint (s : Window) : Option (Window × List Call) :=
  match s.m_context with
  | none => none
  | some c =>
    let paint := match s.m_eventHandler with
      | some h => [Call.paintEvent h]
      | none => []
    some (s, [Call.makeCurrent c] ++ paint ++ [Call.swap c, Call.doneCurrent c])

/-- `Window::onResize()`. -/
def Window.onResize (s : Window) : Window × List Call :=
  match s.m_context, s.m_eventHandler with
  | some c, some h =>
    (s, [Call.makeCurrent c, Call.resizeEvent h s.width s.height, Call.doneCurrent c])
  | _, _ => (s, [])

/-- `Window::onIdle()`. -/
def Window.onIdle (s : Window) : Window × List Call :=
  match s.m_eventHandler with
  | some h => (s, [Call.idleEvent h])
  | none => (s, [])

/-- `Window::onClose()`. -/
def Window.onClose (s : Window) : Window × List Call :=
  let r := match s.m_context with
    | some c =>
      let deinit := match s.m_eventHandler with
        | some h => [Call.makeCurrent c, Call.deinitializeEvent h, Call.doneCurrent c]
        | none => []
      ({ s with m_context := none }, deinit ++ [Call.release c, Call.contextDelete c])
    | none => (s, [])
  let calls := r.2 ++ [Call.nativeDestroy]
  if r.1.m_quitOnDestroy then (r.1, calls ++ [Call.quit 0]) else (r.1, calls)

/-- One invocation of a member function from outside, with what the collaborators
answer during it. -/
inductive Op where
  | create (format : ContextFormat) (title : String) (width height : Nat) (env : CreateEnv)
  | attach (eventHandler : Option WindowEventHandler)
  | setQuitOnDestroy (enable : Bool)
  | promoteContext
  | onRepaint
  | onResize
  | onIdle
  | onClose
  deriving DecidableEq, Repr

/-- What one invocation leaves behind: the state after it, the calls it issued and,
for `create`, the value it returned. -/
structure Outcome where
  state : Window
  calls : List Call
  result : Option Bool
  deriving DecidableEq, Repr

/-- Runs one invocation; `none` when the invocation does not return (`create` with a
failing `assert`, `onRepaint` without a context). -/
def Window.step (ndebug : Bool) (s : Window) : Op → Option Outcome
  | Op.create format title width height env =>
    match s.create ndebug format title width height env with
    | some r => some { state := r.2.1, calls := r.2.2, result := some r.1 }
    | none => none
  | Op.attach h => some { state := (s.attach h).1, calls := (s.attach h).2, result := none }
  | Op.setQuitOnDestroy b =>
    some { state := (s.setQuitOnDestroy b).1, calls := (s.setQuitOnDestroy b).2,
           result := none }
  | Op.promoteContext =>
    some { state := s.promoteContext.1, calls := s.promoteContext.2, result := none }
  | Op.onRepaint =>
    match s.onRepaint with
    | some r => some { state := r.1, calls := r.2, result := none }
    | none => none
  | Op.onResize => some { state := s.onResize.1, calls := s.onResize.2, result := none }
  | Op.onIdle => some { state := s.onIdle.1, calls := s.onIdle.2, result := none }
  | Op.onClose => some { state := s.onClose.1, calls := s.onClose.2, result := none }

/-- Runs a sequence of invocations one after the other, collecting what each leaves
behind; `none` as soon as one of them does not return. -/
def Window.exec (ndebug : Bool) (s : Window) : List Op → Option (Window × List Outcome)
  | [] => some (s, [])
  | op :: ops =>
    match s.step ndebug op with
    | none => none
    | some o =>
      match o.state.exec ndebug ops with
      | none => none
      | some r => some (r.1, o :: r.2)

/-- The invocations that return: `onRepaint` needs a context, and `create` needs its
`assert`s to hold when they are compiled in and reached. -/
def Op.enabled (ndebug : Bool) (s : Window) : Op → Bool
  | Op.create _ _ width height env =>
    !env.nativeOk || ndebug ||
      (toUnsigned env.window.width == width % 2 ^ 32
        && toUnsigned env.window.height == height % 2 ^ 32)
  | Op.onRepaint => s.m_context.isSome
  | _ => true

/-! ### Observers on call sequences -/

/-- Calls delivered to the event handler. -/
def Call.isHandlerEvent : Call → Bool
  | Call.initializeEvent _ => true
  | Call.resizeEvent _ _ _ => true
  | Call.paintEvent _ => true
  | Call.idleEvent _ => true
  | Call.deinitializeEvent _ => true
  | _ => false

/-- Calls on a rendering context, its allocation and deletion included. -/
def Call.isContextCall : Call → Bool
  | Call.contextNew _ => true
  | Call.contextCreate _ _ _ => true
  | Call.makeCurrent _ => true
  | Call.doneCurrent _ => true
  | Call.swap _ => true
  | Call.release _ => true
  | Call.contextDelete _ => true
  | _ => false

/-- Fatal log messages. -/
def Call.isFatal : Call → Bool
  | Call.fatal _ => true
  | _ => false

/-- Process-wide quit signals, whatever their code. -/
def Call.isQuit : Call → Bool
  | Call.quit _ => true
  | _ => false

/-- Releases of a rendering context, whichever context. -/
def Call.isRelease : Call → Bool
  | Call.release _ => true
  | _ => false

/-- Calls of a rendering context's `create`. -/
def Call.isContextCreate : Call → Bool
  | Call.contextCreate _ _ _ => true
  | _ => false

/-- Calls of a rendering context's `makeCurrent`. -/
def Call.isMakeCurrent : Call → Bool
  | Call.makeCurrent _ => true
  | _ => false

/-- Deliveries of `deinitializeEvent`. -/
def Call.isDeinitialize : Call → Bool
  | Call.deinitializeEvent _ => true
  | _ => false

/-- Buffer swaps, on whichever context. -/
def Call.isSwap : Call → Bool
  | Call.swap _ => true
  | _ => false

/-- Calls that need a current context: the handler events other than `idleEvent`,
and the buffer swap. -/
def Call.needsCurrent : Call → Bool
  | Call.initializeEvent _ => true
  | Call.resizeEvent _ _ _ => true
  | Call.paintEvent _ => true
  | Call.deinitializeEvent _ => true
  | Call.swap _ => true
  | _ => false

/-- The first `a` of the sequence comes before its first `b`, and there is a `b`. -/
def precedes (a b : Call) (t : List Call) : Bool :=
  decide (t.indexOf a < t.indexOf b ∧ t.indexOf b < t.length)

/-- Which context is current after a call sequence, given which was before it:
`makeCurrent` makes its context current, `doneCurrent` leaves none current. -/
def currentAfter (cur : Option Context) : List Call → Option Context
  | [] => cur
  | Call.makeCurrent c :: t => currentAfter (some c) t
  | Call.doneCurrent _ :: t => currentAfter none t
  | _ :: t => currentAfter cur t

/-- One step of the bracketing discipline: `makeCurrent` only while no context is
current, `doneCurrent` and `swap` only on the current context, the other calls that
need a current context only while there is one. -/
def bracketStep (cur : Option Context) : Call → Option (Option Context)
  | Call.makeCurrent c => if cur.isNone then some (some c) else none
  | Call.doneCurrent c => if cur = some c then some none else none
  | Call.swap c => if cur = some c then some cur else none
  | Call.initializeEvent _ => if cur.isSome then some cur else none
  | Call.resizeEvent _ _ _ => if cur.isSome then some cur else none
  | Call.paintEvent _ => if cur.isSome then some cur else none
  | Call.deinitializeEvent _ => if cur.isSome then some cur else none
  | _ => some cur

/-- Runs the bracketing discipline over a call sequence; `none` when it is broken. -/
def bracketRun (cur : Option Context) : List Call → Option (Option Context)
  | [] => some cur
  | a :: t =>
    match bracketStep cur a with
    | none => none
    | some cur1 => bracketRun cur1 t

/-- A call sequence that starts with no context current keeps the bracketing
discipline and ends with no context current. -/
def wellBracketed (t : List Call) : Bool := bracketRun none t == some none

/-! ### Single operations -/

/-- C1: with a context `c` and a handler `h` present, `promoteContext` issues exactly
`makeCurrent`, `initializeEvent`, `resizeEvent(width(), height())`, `doneCurrent`, so
`initializeEvent` and `resizeEvent` each occur once, in that order, and no context is
current afterwards, whichever was before; with the context or the handler missing it
issues no call.  The state is unchanged in both cases. -/
theorem promoteContext_calls (s : Window) :
    (∀ c h, s.context = some c → s.eventHandler = some h →
      s.promoteContext.2 = [Call.makeCurrent c, Call.initializeEvent h,
        Call.resizeEvent h s.width s.height, Call.doneCurrent c]
      ∧ s.promoteContext.2.count (Call.initializeEvent h) = 1
      ∧ s.promoteContext.2.count (Call.resizeEvent h s.width s.height) = 1
      ∧ s.promoteContext.2.filter Call.isHandlerEvent
          = [Call.initializeEvent h, Call.resizeEvent h s.width s.height]
      ∧ precedes (Call.initializeEvent h) (Call.resizeEvent h s.width s.height)
          s.promoteContext.2 = true
      ∧ (∀ cur, currentAfter cur s.promoteContext.2 = none)
      ∧ s.promoteContext.1 = s)
    ∧ (s.context = none ∨ s.eventHandler = none → s.promoteContext = (s, [])) := by
  obtain ⟨eh, ctx, q, w⟩ := s
  refine ⟨?_, ?_⟩
  · intro c h hc hh
    simp only [Window.context, Window.eventHandler] at hc hh
    subst hc hh
    simp [Window.promoteContext, precedes, currentAfter, Call.isHandlerEvent,
      List.indexOf_cons]
  · intro hm
    simp only [Window.context, Window.eventHandler] at hm
    rcases hm with hm | hm <;> subst hm
    · simp [Window.promoteContext]
    · cases ctx <;> simp [Window.promoteContext]

/-- Witness for C1: a window with context 7 and handler 3, and one with neither. -/
theorem promoteContext_calls_witness :
    (Window.promoteContext ⟨some 3, some 7, true, ⟨1, 800, 600⟩⟩).2
        = [Call.makeCurrent 7, Call.initializeEvent 3, Call.resizeEvent 3 800 600,
           Call.doneCurrent 7]
    ∧ Window.promoteContext ⟨none, none, true, ⟨1, 800, 600⟩⟩
        = (⟨none, none, true, ⟨1, 800, 600⟩⟩, []) :=
  ⟨((promoteContext_calls ⟨some 3, some 7, true, ⟨1, 800, 600⟩⟩).1 7 3 rfl rfl).1,
   (promoteContext_calls ⟨none, none, true, ⟨1, 800, 600⟩⟩).2 (Or.inl rfl)⟩

/-- C2: `attach(eventHandler)` stores its argument, so `eventHandler()` returns it
afterwards, and touches no other member.  With a context `c` present and a non-empty
argument `h` it issues exactly the promotion sequence with `h` as the receiver; with
an empty argument or no context it issues no call.  So a handler event or a context
call is issued exactly when the argument is non-empty and a context is present. -/
theorem attach_promotes (s : Window) (eventHandler : Option WindowEventHandler) :
    (s.attach eventHandler).1.eventHandler = eventHandler
    ∧ (s.attach eventHandler).1 = { s with m_eventHandler := eventHandler }
    ∧ (∀ c h, s.context = some c → eventHandler = some h →
        (s.attach eventHandler).2 = [Call.makeCurrent c, Call.initializeEvent h,
          Call.resizeEvent h s.width s.height, Call.doneCurrent c]
        ∧ (s.attach eventHandler).2.filter Call.isHandlerEvent
            = [Call.initializeEvent h, Call.resizeEvent h s.width s.height])
    ∧ (eventHandler = none ∨ s.context = none → (s.attach eventHandler).2 = [])
    ∧ ((∃ a ∈ (s.attach eventHandler).2, a.isHandlerEvent = true ∨ a.isContextCall = true)
        ↔ (eventHandler.isSome = true ∧ s.context.isSome = true)) := by
  obtain ⟨eh, ctx, q, w⟩ := s
  cases eventHandler <;> cases ctx <;>
    simp [Window.attach, Window.promoteContext, Window.context, Window.eventHandler,
      Window.width, Window.height, Call.isHandlerEvent, Call.isContextCall]

/-- Witness for C2: handler 5 attached over handler 3 with context 7 present, and a
detach on the same window. -/
theorem attach_promotes_witness :
    (Window.attach ⟨some 3, some 7, true, ⟨1, 800, 600⟩⟩ (some 5)).2
        = [Call.makeCurrent 7, Call.initializeEvent 5, Call.resizeEvent 5 800 600,
           Call.doneCurrent 7]
    ∧ (Window.attach ⟨some 3, some 7, true, ⟨1, 800, 600⟩⟩ none).2 = [] :=
  ⟨((attach_promotes ⟨some 3, some 7, true, ⟨1, 800, 600⟩⟩ (some 5)).2.2.1 7 5 rfl rfl).1,
   (attach_promotes ⟨some 3, some 7, true, ⟨1, 800, 600⟩⟩ none).2.2.2.1 (Or.inl rfl)⟩

/-- C3: on a window with a context `c`, handler attached or not, `onClose` releases
`c` once, leaves the window without a context, destroys the native window once and
after the release, and signals quit exactly when `m_quitOnDestroy` is set: then once,
with code 0, after the native window's destruction. -/
theorem onClose_with_context (s : Window) (c : Context) (hc : s.context = some c) :
    s.onClose.2.count (Call.release c) = 1
    ∧ s.onClose.2.countP Call.isRelease = 1
    ∧ s.onClose.1.context = none
    ∧ s.onClose.2.count Call.nativeDestroy = 1
    ∧ precedes (Call.release c) Call.nativeDestroy s.onClose.2 = true
    ∧ s.onClose.2.countP Call.isQuit = (if s.quitsOnDestroy then 1 else 0)
    ∧ (Call.quit 0 ∈ s.onClose.2 ↔ s.quitsOnDestroy = true)
    ∧ (s.quitsOnDestroy = true →
        precedes Call.nativeDestroy (Call.quit 0) s.onClose.2 = true)
    ∧ s.onClose.1 = { s with m_context := none } := by
  obtain ⟨eh, ctx, q, w⟩ := s
  simp only [Window.context] at hc
  subst hc
  cases eh <;> cases q <;>
    simp [Window.onClose, Window.context, Window.quitsOnDestroy, precedes,
      Call.isQuit, Call.isRelease, List.indexOf_cons]

/-- Witness for C3: context 7, handler 3, `m_quitOnDestroy` set. -/
theorem onClose_with_context_witness :
    (Window.onClose ⟨some 3, some 7, true, ⟨1, 800, 600⟩⟩).2.count (Call.release 7) = 1
    ∧ (Window.onClose ⟨some 3, some 7, true, ⟨1, 800, 600⟩⟩).1.context = none :=
  ⟨(onClose_with_context ⟨some 3, some 7, true, ⟨1, 800, 600⟩⟩ 7 rfl).1,
   (onClose_with_context ⟨some 3, some 7, true, ⟨1, 800, 600⟩⟩ 7 rfl).2.2.1⟩

/-- C4: on a window with a context `c`, `onRepaint` returns and issues `makeCurrent`
first and `doneCurrent` last with exactly one buffer swap between them; with a handler
`h` attached `paintEvent` is delivered once, to `h`, before the swap, and with none
attached no handler event is delivered.  The state is unchanged. -/
theorem onRepaint_with_context (s : Window) (c : Context) (hc : s.context = some c) :
    ∃ calls, s.onRepaint = some (s, calls)
      ∧ calls.head? = some (Call.makeCurrent c)
      ∧ calls.getLast? = some (Call.doneCurrent c)
      ∧ calls.countP Call.isSwap = 1
      ∧ calls.count (Call.swap c) = 1
      ∧ precedes (Call.makeCurrent c) (Call.swap c) calls = true
      ∧ precedes (Call.swap c) (Call.doneCurrent c) calls = true
      ∧ calls.count (Call.makeCurrent c) = 1
      ∧ calls.count (Call.doneCurrent c) = 1
      ∧ (∀ h, s.eventHandler = some h →
          calls.filter Call.isHandlerEvent = [Call.paintEvent h]
          ∧ calls.count (Call.paintEvent h) = 1
          ∧ precedes (Call.paintEvent h) (Call.swap c) calls = true
          ∧ precedes (Call.makeCurrent c) (Call.paintEvent h) calls = true)
      ∧ (s.eventHandler = none → calls.filter Call.isHandlerEvent = []) := by
  obtain ⟨eh, ctx, q, w⟩ := s
  simp only [Window.context] at hc
  subst hc
  cases eh <;>
    simp [Window.onRepaint, Window.eventHandler, precedes, Call.isSwap,
      Call.isHandlerEvent, List.indexOf_cons]

/-- Witness for C4: context 7 and handler 3. -/
theorem onRepaint_with_context_witness :
    ∃ calls, Window.onRepaint ⟨some 3, some 7, true, ⟨1, 800, 600⟩⟩
        = some (⟨some 3, some 7, true, ⟨1, 800, 600⟩⟩, calls)
      ∧ calls.countP Call.isSwap = 1 := by
  obtain ⟨calls, h1, _, _, h4, _⟩ :=
    onRepaint_with_context ⟨some 3, some 7, true, ⟨1, 800, 600⟩⟩ 7 rfl
  exact ⟨calls, h1, h4⟩

/-- C5: when the native window's `create` fails, `Window::create` returns `false`
after exactly the native `create` call and one fatal log message; it allocates no
context and calls none, delivers no handler event, and leaves `context()`,
`eventHandler()` and `quitsOnDestroy()` as they were. -/
theorem create_native_failure (ndebug : Bool) (s : Window) (format : ContextFormat)
    (title : String) (width height : Nat) (env : CreateEnv)
    (hfail : env.nativeOk = false) :
    ∃ s1 calls, s.create ndebug format title width height env = some (false, s1, calls)
      ∧ calls = [Call.nativeCreate format title width height,
                 Call.fatal "Creating native window failed."]
      ∧ calls.countP Call.isFatal = 1
      ∧ calls.filter Call.isContextCall = []
      ∧ calls.filter Call.isHandlerEvent = []
      ∧ s1.context = s.context
      ∧ s1.eventHandler = s.eventHandler
      ∧ s1.quitsOnDestroy = s.quitsOnDestroy := by
  refine ⟨{ s with m_window := env.window }, _, ?_, rfl, ?_⟩
  · simp [Window.create, hfail]
  · simp [Window.context, Window.eventHandler, Window.quitsOnDestroy, Call.isFatal,
      Call.isContextCall, Call.isHandlerEvent]

/-- Witness for C5: a fresh window with handler 3 attached whose native window cannot
be created. -/
theorem create_native_failure_witness :
    ∃ s1 calls, Window.create false ⟨some 3, none, true, ⟨0, 0, 0⟩⟩ ⟨0⟩ "T" 800 600
        ⟨false, ⟨0, 0, 0⟩, 7, true⟩ = some (false, s1, calls)
      ∧ s1.context = none := by
  obtain ⟨s1, calls, h1, _, _, _, _, h6, _⟩ :=
    create_native_failure false ⟨some 3, none, true, ⟨0, 0, 0⟩⟩ ⟨0⟩ "T" 800 600
      ⟨false, ⟨0, 0, 0⟩, 7, true⟩ rfl
  exact ⟨s1, calls, h1, h6⟩

/-- C8, as the claim states it, fails: with the asserts compiled in, a native window
whose `create` succeeds but which then reports a width of 801 for the requested 800
makes the first `assert` fail, so `Window::create` does not return: no context is
allocated, no context `create` is called and no result is returned.  The invocation
is not among those that return. -/
theorem create_size_mismatch_aborts :
    Window.create false ⟨some 3, none, true, ⟨0, 0, 0⟩⟩ ⟨0⟩ "T" 800 600
        ⟨true, ⟨1, 801, 600⟩, 7, true⟩ = none
    ∧ CreateEnv.nativeOk ⟨true, ⟨1, 801, 600⟩, 7, true⟩ = true
    ∧ Op.enabled false ⟨some 3, none, true, ⟨0, 0, 0⟩⟩
        (Op.create ⟨0⟩ "T" 800 600 ⟨true, ⟨1, 801, 600⟩, 7, true⟩) = false := by
  have hu : toUnsigned 801 ≠ 800 % 2 ^ 32 := by decide
  have hv : toUnsigned 600 = 600 % 2 ^ 32 := by decide
  refine ⟨?_, rfl, ?_⟩
  · simp [Window.create, Window.width, hu, -Nat.reducePow]
  · simp [Op.enabled, hu, hv, -Nat.reducePow]

/-- C8, amended: when the native window's `create` succeeds and the native window
reports the requested size, which is what the two asserts check (or the asserts are
compiled out), `Window::create` returns,
allocates a context, calls its `create` once with the window's handle and the given
format, runs `promoteContext` on the new context whatever that call answered, and
returns that answer.  So with a handler `h` attached the handler receives
`initializeEvent` then `resizeEvent` between `makeCurrent` and `doneCurrent` even when
the context's `create` failed, and `context()` is the new context afterwards. -/
theorem create_native_success (ndebug : Bool) (s : Window) (format : ContextFormat)
    (title : String) (width height : Nat) (env : CreateEnv)
    (hok : env.nativeOk = true)
    (hassert : ndebug = true ∨ (toUnsigned env.window.width = width % 2 ^ 32
      ∧ toUnsigned env.window.height = height % 2 ^ 32)) :
    ∃ s1 calls, s.create ndebug format title width height env
        = some (env.contextOk, s1, calls)
      ∧ s1.context = some env.newContext
      ∧ s1 = { s with m_window := env.window, m_context := some env.newContext }
      ∧ calls = [Call.nativeCreate format title width height,
                 Call.contextNew env.newContext,
                 Call.contextCreate env.newContext env.window.handle format]
                ++ (Window.promoteContext
                      { s with m_window := env.window,
                               m_context := some env.newContext }).2
      ∧ calls.count (Call.contextNew env.newContext) = 1
      ∧ calls.countP Call.isContextCreate = 1
      ∧ (∀ h, s.eventHandler = some h →
          calls = [Call.nativeCreate format title width height,
                   Call.contextNew env.newContext,
                   Call.contextCreate env.newContext env.window.handle format,
                   Call.makeCurrent env.newContext, Call.initializeEvent h,
                   Call.resizeEvent h env.window.width env.window.height,
                   Call.doneCurrent env.newContext])
      ∧ (s.eventHandler = none →
          calls = [Call.nativeCreate format title width height,
                   Call.contextNew env.newContext,
                   Call.contextCreate env.newContext env.window.handle format]) := by
  obtain ⟨eh, ctx, q, w⟩ := s
  have h1 : ¬ (ndebug = false ∧ ¬ toUnsigned env.window.width = width % 2 ^ 32) := by
    rcases hassert with h | h
    · simp [h]
    · simp [h.1]
  have h2 : ¬ (ndebug = false ∧ ¬ toUnsigned env.window.height = height % 2 ^ 32) := by
    rcases hassert with h | h
    · simp [h]
    · simp [h.2]
  refine ⟨⟨eh, some env.newContext, q, env.window⟩,
    [Call.nativeCreate format title width height, Call.contextNew env.newContext,
     Call.contextCreate env.newContext env.window.handle format]
      ++ (Window.promoteContext ⟨eh, some env.newContext, q, env.window⟩).2, ?_, ?_⟩
  · simp only [Window.create, hok, Window.width, Window.height, ne_eq, h1, h2]
    cases eh <;> simp [Window.promoteContext, Window.handle]
  · cases eh <;>
      simp [Window.promoteContext, Window.context, Window.eventHandler,
        Window.width, Window.height, Call.isContextCreate]

/-- Witness for C8, amended: handler 3 attached before `create`, native window created at the
requested size, context creation failing. -/
theorem create_native_success_witness :
    ∃ s1 calls, Window.create false ⟨some 3, none, true, ⟨0, 0, 0⟩⟩ ⟨0⟩ "T" 800 600
        ⟨true, ⟨1, 800, 600⟩, 7, false⟩ = some (false, s1, calls)
      ∧ s1.context = some 7
      ∧ calls = [Call.nativeCreate ⟨0⟩ "T" 800 600, Call.contextNew 7,
                 Call.contextCreate 7 1 ⟨0⟩, Call.makeCurrent 7, Call.initializeEvent 3,
                 Call.resizeEvent 3 800 600, Call.doneCurrent 7] := by
  obtain ⟨s1, calls, h1, h2, _, _, _, _, h7, _⟩ :=
    create_native_success false ⟨some 3, none, true, ⟨0, 0, 0⟩⟩ ⟨0⟩ "T" 800 600
      ⟨true, ⟨1, 800, 600⟩, 7, false⟩ rfl (Or.inr (by decide))
  exact ⟨s1, calls, h1, h2, h7 3 rfl⟩

/-- C6: the end-to-end scenario on a freshly constructed window.  `create` with format
`F`, title "T" and size 800 by 600, the native window and the context both created and
the native window reporting 800 by 600, returns `true` without any handler event;
`attach(H)` then delivers `initializeEvent` and `resizeEvent(800, 600)` to `H`;
`onRepaint` delivers `paintEvent` to `H` and then swaps once; `onClose`, with
`m_quitOnDestroy` still set from construction, delivers `deinitializeEvent` to `H`,
releases the context, destroys the native window and signals `quit(0)`, in that order.
Over the whole run the handler events are these four and no other. -/
theorem scenario_trace (ndebug : Bool) (F : ContextFormat) (H : WindowEventHandler)
    (c : Context) (hd : Int) (w0 : NativeWindow) :
    (Window.new w0).create ndebug F "T" 800 600 ⟨true, ⟨hd, 800, 600⟩, c, true⟩
        = some (true, ⟨none, some c, true, ⟨hd, 800, 600⟩⟩,
            [Call.nativeCreate F "T" 800 600, Call.contextNew c,
             Call.contextCreate c hd F])
    ∧ Window.width ⟨none, some c, true, ⟨hd, 800, 600⟩⟩ = 800
    ∧ Window.height ⟨none, some c, true, ⟨hd, 800, 600⟩⟩ = 600
    ∧ [Call.nativeCreate F "T" 800 600, Call.contextNew c,
       Call.contextCreate c hd F].filter Call.isHandlerEvent = []
    ∧ Window.attach ⟨none, some c, true, ⟨hd, 800, 600⟩⟩ (some H)
        = (⟨some H, some c, true, ⟨hd, 800, 600⟩⟩,
            [Call.makeCurrent c, Call.initializeEvent H, Call.resizeEvent H 800 600,
             Call.doneCurrent c])
    ∧ Window.onRepaint ⟨some H, some c, true, ⟨hd, 800, 600⟩⟩
        = some (⟨some H, some c, true, ⟨hd, 800, 600⟩⟩,
            [Call.makeCurrent c, Call.paintEvent H, Call.swap c, Call.doneCurrent c])
    ∧ Window.quitsOnDestroy ⟨some H, some c, true, ⟨hd, 800, 600⟩⟩ = true
    ∧ Window.onClose ⟨some H, some c, true, ⟨hd, 800, 600⟩⟩
        = (⟨some H, none, true, ⟨hd, 800, 600⟩⟩,
            [Call.makeCurrent c, Call.deinitializeEvent H, Call.doneCurrent c,
             Call.release c, Call.contextDelete c, Call.nativeDestroy, Call.quit 0])
    ∧ ∃ outcomes, (Window.new w0).exec ndebug
          [Op.create F "T" 800 600 ⟨true, ⟨hd, 800, 600⟩, c, true⟩, Op.attach (some H),
           Op.onRepaint, Op.onClose]
          = some (⟨some H, none, true, ⟨hd, 800, 600⟩⟩, outcomes)
        ∧ outcomes.map Outcome.result = [some true, none, none, none]
        ∧ (outcomes.map Outcome.calls).flatten
            = [Call.nativeCreate F "T" 800 600, Call.contextNew c,
               Call.contextCreate c hd F,
               Call.makeCurrent c, Call.initializeEvent H, Call.resizeEvent H 800 600,
               Call.doneCurrent c,
               Call.makeCurrent c, Call.paintEvent H, Call.swap c, Call.doneCurrent c,
               Call.makeCurrent c, Call.deinitializeEvent H, Call.doneCurrent c,
               Call.release c, Call.contextDelete c, Call.nativeDestroy, Call.quit 0]
        ∧ (outcomes.map Outcome.calls).flatten.filter Call.isHandlerEvent
            = [Call.initializeEvent H, Call.resizeEvent H 800 600, Call.paintEvent H,
               Call.deinitializeEvent H] := by
  have hu : toUnsigned 800 = 800 % 2 ^ 32 ∧ toUnsigned 600 = 600 % 2 ^ 32 := by decide
  have hcreate : (Window.new w0).create ndebug F "T" 800 600
      ⟨true, ⟨hd, 800, 600⟩, c, true⟩
      = some (true, ⟨none, some c, true, ⟨hd, 800, 600⟩⟩,
          [Call.nativeCreate F "T" 800 600, Call.contextNew c,
           Call.contextCreate c hd F]) := by
    simp [Window.create, Window.new, Window.width, Window.height, hu.1, hu.2,
      Window.promoteContext, Window.handle]
  refine ⟨hcreate, rfl, rfl, by simp [Call.isHandlerEvent], ?_, ?_, rfl, ?_, ?_⟩
  · simp [Window.attach, Window.promoteContext, Window.width, Window.height]
  · simp [Window.onRepaint]
  · simp [Window.onClose]
  · simp [Window.exec, Window.step, hcreate, Window.attach, Window.promoteContext,
      Window.width, Window.height, Window.onRepaint, Window.onClose,
      Call.isHandlerEvent]

/-- C9, as the claim states it, fails: on a window with context 7 and no handler,
`onClose` releases and deletes the context, destroys the native window and quits
without ever calling `makeCurrent`. -/
theorem onClose_no_handler_no_makeCurrent :
    (Window.onClose ⟨none, some 7, true, ⟨1, 800, 600⟩⟩).2
        = [Call.release 7, Call.contextDelete 7, Call.nativeDestroy, Call.quit 0]
    ∧ Window.context ⟨none, some 7, true, ⟨1, 800, 600⟩⟩ = some 7
    ∧ (Window.onClose ⟨none, some 7, true, ⟨1, 800, 600⟩⟩).2.countP Call.isMakeCurrent
        = 0 := by
  simp [Window.onClose, Window.context, Call.isMakeCurrent]

/-- C9, amended: `onClose` makes the context current only when both a context and a
handler are present, and then only around the one `deinitializeEvent`.  With a context
`c` and a handler `h` it issues `makeCurrent`, `deinitializeEvent`, `doneCurrent`,
then releases and deletes `c`, then destroys the native window; with a context and no
handler it only releases and deletes `c` and destroys the native window; without a
context it issues no context call and no handler event and destroys the native
window.  In every case `quit(0)` comes last, exactly when `m_quitOnDestroy` is set,
and the window has no context afterwards. -/
theorem onClose_calls (s : Window) :
    (∀ c h, s.context = some c → s.eventHandler = some h →
      s.onClose.2 = [Call.makeCurrent c, Call.deinitializeEvent h, Call.doneCurrent c,
                     Call.release c, Call.contextDelete c, Call.nativeDestroy]
                    ++ (if s.quitsOnDestroy then [Call.quit 0] else []))
    ∧ (∀ c, s.context = some c → s.eventHandler = none →
      s.onClose.2 = [Call.release c, Call.contextDelete c, Call.nativeDestroy]
                    ++ (if s.quitsOnDestroy then [Call.quit 0] else []))
    ∧ (s.context = none →
      s.onClose.2 = [Call.nativeDestroy] ++ (if s.quitsOnDestroy then [Call.quit 0] else [])
      ∧ s.onClose.2.filter Call.isContextCall = []
      ∧ s.onClose.2.filter Call.isHandlerEvent = [])
    ∧ s.onClose.2.countP Call.isMakeCurrent
        = (if s.context.isSome ∧ s.eventHandler.isSome then 1 else 0)
    ∧ s.onClose.2.countP Call.isDeinitialize
        = (if s.context.isSome ∧ s.eventHandler.isSome then 1 else 0)
    ∧ s.onClose.2.countP Call.isQuit = (if s.quitsOnDestroy then 1 else 0)
    ∧ (s.quitsOnDestroy = true → s.onClose.2.getLast? = some (Call.quit 0))
    ∧ (s.quitsOnDestroy = false → s.onClose.2.getLast? = some Call.nativeDestroy)
    ∧ s.onClose.1 = { s with m_context := none } := by
  obtain ⟨eh, ctx, q, w⟩ := s
  cases eh <;> cases ctx <;> cases q <;>
    simp [Window.onClose, Window.context, Window.eventHandler, Window.quitsOnDestroy,
      Call.isMakeCurrent, Call.isDeinitialize, Call.isQuit, Call.isContextCall,
      Call.isHandlerEvent]

/-- Witness for C9, amended: context 7 with handler 3, context 7 without a handler,
and no context. -/
theorem onClose_calls_witness :
    (Window.onClose ⟨some 3, some 7, true, ⟨1, 800, 600⟩⟩).2
        = [Call.makeCurrent 7, Call.deinitializeEvent 3, Call.doneCurrent 7,
           Call.release 7, Call.contextDelete 7, Call.nativeDestroy]
          ++ (if Window.quitsOnDestroy ⟨some 3, some 7, true, ⟨1, 800, 600⟩⟩
              then [Call.quit 0] else [])
    ∧ (Window.onClose ⟨none, some 7, false, ⟨1, 800, 600⟩⟩).2
        = [Call.release 7, Call.contextDelete 7, Call.nativeDestroy]
          ++ (if Window.quitsOnDestroy ⟨none, some 7, false, ⟨1, 800, 600⟩⟩
              then [Call.quit 0] else [])
    ∧ (Window.onClose ⟨some 3, none, true, ⟨1, 800, 600⟩⟩).2.filter Call.isContextCall
        = [] :=
  ⟨(onClose_calls ⟨some 3, some 7, true, ⟨1, 800, 600⟩⟩).1 7 3 rfl rfl,
   (onClose_calls ⟨none, some 7, false, ⟨1, 800, 600⟩⟩).2.1 7 rfl rfl,
   ((onClose_calls ⟨some 3, none, true, ⟨1, 800, 600⟩⟩).2.2.1 rfl).2.1⟩

/-- C10: every invocation that returns issues a well-bracketed call sequence: each
`makeCurrent` is issued while no context is current and is closed by a `doneCurrent`
on the same context, every `initializeEvent`, `resizeEvent`, `paintEvent`,
`deinitializeEvent` and `swap` falls inside such a pair, and no context is current at
the end.  Every invocation returns except `onRepaint` without a context and `create`
with a failing assert.  `onIdle` issues no context call: it delivers `idleEvent` once
when a handler is attached and nothing otherwise. -/
theorem operations_bracketed (ndebug : Bool) (s : Window) (op : Op) :
    (s.step ndebug op).isSome = op.enabled ndebug s
    ∧ (∀ o, s.step ndebug op = some o → wellBracketed o.calls = true)
    ∧ s.onIdle.2.filter Call.isContextCall = []
    ∧ (∀ h, s.eventHandler = some h → s.onIdle.2 = [Call.idleEvent h])
    ∧ (s.eventHandler = none → s.onIdle.2 = [])
    ∧ s.onIdle.1 = s := by
  obtain ⟨eh, ctx, q, w⟩ := s
  refine ⟨?_, ?_, ?_, ?_, ?_, ?_⟩
  · cases op with
    | create format title width height env =>
      obtain ⟨nok, win, nc, cok⟩ := env
      by_cases h1 : toUnsigned win.width = width % 2 ^ 32 <;>
        by_cases h2 : toUnsigned win.height = height % 2 ^ 32 <;>
        cases nok <;> cases ndebug <;>
        simp [Window.step, Window.create, Op.enabled, Window.width, Window.height,
          h1, h2, -Nat.reducePow]
    | onRepaint => cases ctx <;> simp [Window.step, Window.onRepaint, Op.enabled]
    | _ => simp [Window.step, Op.enabled]
  · intro o ho
    cases op with
    | create format title width height env =>
      obtain ⟨nok, win, nc, cok⟩ := env
      simp only [Window.step] at ho
      cases hcr : Window.create ndebug ⟨eh, ctx, q, w⟩ format title width height
          ⟨nok, win, nc, cok⟩ with
      | none => simp [hcr] at ho
      | some r =>
        simp only [hcr, Option.some.injEq] at ho
        subst ho
        simp only [Window.create] at hcr
        split at hcr
        · simp only [Option.some.injEq] at hcr
          subst hcr
          simp [wellBracketed, bracketRun, bracketStep]
        · split at hcr
          · simp at hcr
          · split at hcr
            · simp at hcr
            · simp only [Option.some.injEq] at hcr
              subst hcr
              cases eh <;>
                simp [wellBracketed, bracketRun, bracketStep, Window.promoteContext]
    | attach h =>
      simp only [Window.step, Option.some.injEq] at ho
      subst ho
      cases h <;> cases ctx <;>
        simp [wellBracketed, bracketRun, bracketStep, Window.attach,
          Window.promoteContext]
    | setQuitOnDestroy b =>
      simp only [Window.step, Option.some.injEq] at ho
      subst ho
      simp [wellBracketed, bracketRun, Window.setQuitOnDestroy]
    | promoteContext =>
      simp only [Window.step, Option.some.injEq] at ho
      subst ho
      cases eh <;> cases ctx <;>
        simp [wellBracketed, bracketRun, bracketStep, Window.promoteContext]
    | onRepaint =>
      cases ctx with
      | none => simp [Window.step, Window.onRepaint] at ho
      | some c =>
        simp only [Window.step, Window.onRepaint, Option.some.injEq] at ho
        subst ho
        cases eh <;> simp [wellBracketed, bracketRun, bracketStep]
    | onResize =>
      simp only [Window.step, Option.some.injEq] at ho
      subst ho
      cases eh <;> cases ctx <;>
        simp [wellBracketed, bracketRun, bracketStep, Window.onResize]
    | onIdle =>
      simp only [Window.step, Option.some.injEq] at ho
      subst ho
      cases eh <;> simp [wellBracketed, bracketRun, bracketStep, Window.onIdle]
    | onClose =>
      simp only [Window.step, Option.some.injEq] at ho
      subst ho
      cases eh <;> cases ctx <;> cases q <;>
        simp [wellBracketed, bracketRun, bracketStep, Window.onClose]
  · cases eh <;> simp [Window.onIdle, Call.isContextCall]
  · intro h hh
    simp only [Window.eventHandler] at hh
    subst hh
    simp [Window.onIdle]
  · intro hh
    simp only [Window.eventHandler] at hh
    subst hh
    simp [Window.onIdle]
  · cases eh <;> simp [Window.onIdle]

/-- Witness for C10: `onClose` on a window with context 7 and handler 3, and `onIdle`
on the same window. -/
theorem operations_bracketed_witness :
    wellBracketed [Call.makeCurrent 7, Call.deinitializeEvent 3, Call.doneCurrent 7,
      Call.release 7, Call.contextDelete 7, Call.nativeDestroy, Call.quit 0] = true
    ∧ (Window.onIdle ⟨some 3, some 7, true, ⟨1, 800, 600⟩⟩).2 = [Call.idleEvent 3] :=
  ⟨(operations_bracketed false ⟨some 3, some 7, true, ⟨1, 800, 600⟩⟩ Op.onClose).2.1
      ⟨⟨some 3, none, true, ⟨1, 800, 600⟩⟩,
       [Call.makeCurrent 7, Call.deinitializeEvent 3, Call.doneCurrent 7,
        Call.release 7, Call.contextDelete 7, Call.nativeDestroy, Call.quit 0], none⟩
      rfl,
   (operations_bracketed false ⟨some 3, some 7, true, ⟨1, 800, 600⟩⟩ Op.onClose).2.2.2.1
      3 rfl⟩

/-! ### Sequences of operations -/

/-- One invocation leaves the context as it was, unless it is a `create` whose native
window was created, which installs the newly allocated context. -/
theorem step_context (ndebug : Bool) (s : Window) (op : Op) (o : Outcome) (c : Context)
    (hstep : s.step ndebug op = some o) (hctx : o.state.context = some c) :
    s.context = some c ∨ ∃ format title width height env,
      op = Op.create format title width height env ∧ env.nativeOk = true
        ∧ env.newContext = c := by
  obtain ⟨eh, ctx, q, w⟩ := s
  cases op with
  | create format title width height env =>
    simp only [Window.step] at hstep
    cases hcr : Window.create ndebug ⟨eh, ctx, q, w⟩ format title width height env with
    | none => simp [hcr] at hstep
    | some r =>
      simp only [hcr, Option.some.injEq] at hstep
      subst hstep
      simp only [Window.create] at hcr
      split at hcr
      · left
        simp only [Option.some.injEq] at hcr
        subst hcr
        simpa [Window.context] using hctx
      · rename_i hok
        right
        refine ⟨format, title, width, height, env, rfl, by simpa using hok, ?_⟩
        split at hcr
        · simp at hcr
        · split at hcr
          · simp at hcr
          · simp only [Option.some.injEq] at hcr
            subst hcr
            cases eh <;> simpa [Window.promoteContext, Window.context] using hctx
  | attach h =>
    left
    simp only [Window.step, Option.some.injEq] at hstep
    subst hstep
    cases h <;> cases ctx <;>
      simp_all [Window.attach, Window.promoteContext, Window.context]
  | setQuitOnDestroy b =>
    left
    simp only [Window.step, Option.some.injEq] at hstep
    subst hstep
    simpa [Window.setQuitOnDestroy, Window.context] using hctx
  | promoteContext =>
    left
    simp only [Window.step, Option.some.injEq] at hstep
    subst hstep
    cases eh <;> cases ctx <;> simp_all [Window.promoteContext, Window.context]
  | onRepaint =>
    left
    cases ctx with
    | none => simp [Window.step, Window.onRepaint] at hstep
    | some c1 =>
      simp only [Window.step, Window.onRepaint, Option.some.injEq] at hstep
      subst hstep
      simpa [Window.context] using hctx
  | onResize =>
    left
    simp only [Window.step, Option.some.injEq] at hstep
    subst hstep
    cases eh <;> cases ctx <;> simp_all [Window.onResize, Window.context]
  | onIdle =>
    left
    simp only [Window.step, Option.some.injEq] at hstep
    subst hstep
    cases eh <;> simp_all [Window.onIdle, Window.context]
  | onClose =>
    simp only [Window.step, Option.some.injEq] at hstep
    subst hstep
    cases eh <;> cases ctx <;> cases q <;> simp [Window.onClose, Window.context] at hctx

/-- Along a run the context present at the end was either present at the start or
installed by a `create` of the run whose native window was created. -/
theorem exec_context (ndebug : Bool) (ops : List Op) :
    ∀ (s s1 : Window) (outcomes : List Outcome) (c : Context),
      s.exec ndebug ops = some (s1, outcomes) → s1.context = some c →
      s.context = some c ∨ ∃ format title width height env,
        Op.create format title width height env ∈ ops ∧ env.nativeOk = true
          ∧ env.newContext = c := by
  induction ops with
  | nil =>
    intro s s1 outcomes c hrun hctx
    simp only [Window.exec, Option.some.injEq, Prod.mk.injEq] at hrun
    left
    rw [hrun.1]
    exact hctx
  | cons op ops ih =>
    intro s s1 outcomes c hrun hctx
    simp only [Window.exec] at hrun
    cases hst : s.step ndebug op with
    | none => simp [hst] at hrun
    | some o =>
      simp only [hst] at hrun
      cases hex : o.state.exec ndebug ops with
      | none => simp [hex] at hrun
      | some r =>
        simp only [hex, Option.some.injEq, Prod.mk.injEq] at hrun
        obtain ⟨r1, r2⟩ := r
        have hr1 : r1 = s1 := hrun.1
        subst hr1
        rcases ih o.state r1 r2 c hex hctx with h | ⟨f, t, wd, ht, env, hmem, hok, hnew⟩
        · rcases step_context ndebug s op o c hst h with h0 | ⟨f, t, wd, ht, env, hop, hok, hnew⟩
          · exact Or.inl h0
          · exact Or.inr ⟨f, t, wd, ht, env, by simp [hop], hok, hnew⟩
        · exact Or.inr ⟨f, t, wd, ht, env, List.mem_cons_of_mem _ hmem, hok, hnew⟩

/-- C7, as the claim states it, fails: on a fresh window, a `create` whose native
window is created at the requested size and whose context cannot be created returns
`false`, and `context()` is non-null afterwards although no `create` returned
`true`. -/
theorem context_after_failed_create :
    ((Window.new ⟨0, 0, 0⟩).exec false
        [Op.create ⟨0⟩ "T" 800 600 ⟨true, ⟨1, 800, 600⟩, 7, false⟩]).map
      (fun r => (r.1.context, r.2.map Outcome.result))
      = some (some 7, [some false]) := by
  have hu : toUnsigned 800 = 800 % 2 ^ 32 ∧ toUnsigned 600 = 600 % 2 ^ 32 := by decide
  simp [Window.exec, Window.step, Window.create, Window.new, Window.width,
    Window.height, hu.1, hu.2, Window.promoteContext, Window.context]

/-- C7, amended: in every state reached from a freshly constructed window by a run of
`create`, `attach`, `setQuitOnDestroy`, `promoteContext`, `onRepaint`, `onResize`,
`onIdle` and `onClose`, whatever the native window and the context answer, a context
is present only if a `create` of the run had its native window created, and the
context present is the one that `create` allocated; that `create` need not have
returned `true`.  Attaching or detaching a handler never changes the context. -/
theorem context_only_after_native_create (ndebug : Bool) (w0 : NativeWindow)
    (ops : List Op) (s : Window) (outcomes : List Outcome) (c : Context)
    (hrun : (Window.new w0).exec ndebug ops = some (s, outcomes))
    (hctx : s.context = some c) :
    (∃ format title width height env,
        Op.create format title width height env ∈ ops ∧ env.nativeOk = true
          ∧ env.newContext = c)
    ∧ ∀ (s0 : Window) (eventHandler : Option WindowEventHandler),
        (s0.attach eventHandler).1.context = s0.context := by
  refine ⟨?_, ?_⟩
  · rcases exec_context ndebug ops (Window.new w0) s outcomes c hrun hctx with h | h
    · simp [Window.new, Window.context] at h
    · exact h
  · intro s0 eventHandler
    obtain ⟨eh, ctx, q, w⟩ := s0
    cases eventHandler <;> cases ctx <;>
      simp [Window.attach, Window.promoteContext, Window.context]

/-- Witness for C7, amended: a fresh window, a `create` that succeeds with context 7,
then a handler attached. -/
theorem context_only_after_native_create_witness :
    (Window.new ⟨0, 0, 0⟩).exec false
        [Op.create ⟨0⟩ "T" 800 600 ⟨true, ⟨1, 800, 600⟩, 7, true⟩, Op.attach (some 3)]
      = some (⟨some 3, some 7, true, ⟨1, 800, 600⟩⟩,
          [⟨⟨none, some 7, true, ⟨1, 800, 600⟩⟩,
            [Call.nativeCreate ⟨0⟩ "T" 800 600, Call.contextNew 7,
             Call.contextCreate 7 1 ⟨0⟩], some true⟩,
           ⟨⟨some 3, some 7, true, ⟨1, 800, 600⟩⟩,
            [Call.makeCurrent 7, Call.initializeEvent 3, Call.resizeEvent 3 800 600,
             Call.doneCurrent 7], none⟩])
    ∧ ∃ format title width height env,
        Op.create format title width height env
            ∈ [Op.create ⟨0⟩ "T" 800 600 ⟨true, ⟨1, 800, 600⟩, 7, true⟩,
               Op.attach (some 3)]
          ∧ env.nativeOk = true ∧ env.newContext = 7 :=
  ⟨rfl,
   (context_only_after_native_create false ⟨0, 0, 0⟩
      [Op.create ⟨0⟩ "T" 800 600 ⟨true, ⟨1, 800, 600⟩, 7, true⟩, Op.attach (some 3)]
      ⟨some 3, some 7, true, ⟨1, 800, 600⟩⟩
      [⟨⟨none, some 7, true, ⟨1, 800, 600⟩⟩,
        [Call.nativeCreate ⟨0⟩ "T" 800 600, Call.contextNew 7,
         Call.contextCreate 7 1 ⟨0⟩], some true⟩,
       ⟨⟨some 3, some 7, true, ⟨1, 800, 600⟩⟩,
        [Call.makeCurrent 7, Call.initializeEvent 3, Call.resizeEvent 3 800 600,
         Call.doneCurrent 7], none⟩]
      7 rfl rfl).1⟩

end glow
